import Mathlib

/-!
Verification development for the WebRTC demo client (src/app/page.tsx).

The page is a single React component; all interesting behaviour lives in a
handful of event handlers mutating a fixed set of refs and state hooks
(roomId, inCall, localStream, remoteStream, ws.current, pc.current).
We embed those handlers as pure functions over an explicit `AppState`,
returning the successor state together with the ordered list of observable
actions (envelopes sent, console diagnostics, alerts, resource releases).

Browser facts that the handlers rely on are modelled explicitly:
  - inbound frames are JSON values (`JValue`); a frame that fails to parse is
    `none`, mirroring that `JSON.parse` throws on it (page.tsx line 106 has no
    try/catch around the parse);
  - `RTCPeerConnection.setRemoteDescription` succeeds or rejects according to
    the signaling-state machine of the WebRTC spec (an answer needs
    have-local-offer, an offer needs stable/have-remote-offer);
  - `addIceCandidate` rejects unless a remote description has been set;
  - outcomes that genuinely depend on the environment (createOffer,
    createAnswer, setLocalDescription, getUserMedia) come from an `Oracle`.

`pc.current` is only ever reassigned inside `createPeerConnection`, to a
freshly constructed connection, so the list `AppState.pcs` keeps every handle
ever created with the current one at the head.
-/

/-- A parsed JSON value, the result of a successful JSON.parse on a frame. -/
inductive JValue where
  | null
  | bool (b : Bool)
  | num (n : Int)
  | str (s : String)
  | obj (fields : List (String × JValue))

/-- Property lookup on a JSON value: `v.k` in JS, `undefined` (none) when the
value is not an object or lacks the key. -/
def getField : JValue → String → Option JValue
  | JValue.obj fields, key => lookupField fields key
  | _, _ => none
where lookupField : List (String × JValue) → String → Option JValue
  | [], _ => none
  | (k, v) :: rest, key => if k = key then some v else lookupField rest key

/-- JS truthiness of a possibly-undefined value, as used by the guards
`if (data.payload?.sdp)` and `if (data.payload?.candidate)`. -/
def truthy : Option JValue → Bool
  | none => false
  | some JValue.null => false
  | some (JValue.bool b) => b
  | some (JValue.num n) => n != 0
  | some (JValue.str s) => s != ""
  | some (JValue.obj _) => true

/-- Whether the parsed frame is the JSON literal null (property access on it
throws a TypeError in JS). -/
def isNull : JValue → Bool
  | JValue.null => true
  | _ => false

/-- Read `data.payload?.k`: optional chaining through the payload field. -/
def payloadField (data : JValue) (k : String) : Option JValue :=
  match getField data "payload" with
  | some p => getField p k
  | none => none

/-- Unwrap an optional JSON value that a truthiness guard has already
established to be present. -/
def getDflt (v : Option JValue) : JValue :=
  match v with
  | some j => j
  | none => JValue.null

/-- The payload object of an outbound envelope, covering the shapes the page
actually sends: id, sdp, candidate, message. -/
structure Payload where
  id : Option String
  sdp : Option JValue
  candidate : Option JValue
  message : Option JValue

/-- An outbound signaling envelope as serialised by `sendMessage`. -/
structure Envelope where
  type : String
  payload : Payload

/-- The error sites at which the page logs via console.error. -/
inductive ErrK where
  | createOffer
  | handleOffer
  | handleAnswer
  | addCandidate
  | mediaAccess
deriving DecidableEq

/-- An exception escaping a handler uncaught. -/
inductive JsError where
  | parseError
  | typeError
deriving DecidableEq

/-- One observable action of a handler, in program order. -/
inductive Act where
  | sendEnv (e : Envelope)
  | log (msg : String)
  | logError (k : ErrK)
  | alert (msg : String)
  | alertValue (v : JValue)
  | stopMediaTracks
  | closeSignaling
  | closePeer
  | setInCallFalse
  | clearLocalStream
  | clearRemoteStream
  | clearRoomId

/-- Whether an action is a console.error diagnostic. -/
def Act.isErrLog : Act → Bool
  | Act.logError _ => true
  | _ => false

/-- Whether an action sends an envelope of the given type. -/
def isSendType (t : String) : Act → Bool
  | Act.sendEnv e => e.type == t
  | _ => false

/-- Whether an action sends any envelope at all. -/
def Act.isSend : Act → Bool
  | Act.sendEnv _ => true
  | _ => false

/-- The WebRTC signaling state of a peer connection, as far as the offer and
answer application rules need it. -/
inductive SignalingState where
  | stable
  | haveLocalOffer
  | haveRemoteOffer
deriving DecidableEq

/-- One RTCPeerConnection ever constructed by the page. -/
structure PCRecord where
  closed : Bool
  signalingState : SignalingState
  remoteDesc : Option JValue
  tracksAttached : Bool
  appliedCandidates : List JValue

/-- The WebSocket held in ws.current. -/
structure WSState where
  closed : Bool
deriving DecidableEq

/-- The component state: React state hooks plus the ws/pc refs.  `pcs` lists
every peer connection ever created, most recent (pc.current) first. -/
structure AppState where
  roomId : String
  inCall : Bool
  localStream : Option Nat
  remoteStream : Option Nat
  ws : Option WSState
  pcs : List PCRecord

/-- Environment-determined outcomes of the async browser APIs: `none` or
`false` means the corresponding promise rejects. -/
structure Oracle where
  createOfferResult : Option JValue
  setLocalOfferOk : Bool
  createAnswerResult : Option JValue
  setLocalAnswerOk : Bool
  getUserMediaResult : Option Nat

/-- pc.current: the most recently constructed peer connection, if any. -/
def curPC (s : AppState) : Option PCRecord :=
  s.pcs.head?

/-- Replace pc.current by an updated record (no-op when none exists). -/
def setCur (s : AppState) (p : PCRecord) : AppState :=
  match s.pcs with
  | [] => s
  | _ :: t => { s with pcs := p :: t }

/-- Effect of `pc.current?.close()` on the handle list. -/
def closeHead : List PCRecord → List PCRecord
  | [] => []
  | p :: rest => { p with closed := true } :: rest

/-- All handles in the list are closed. -/
def allClosed (l : List PCRecord) : Bool :=
  l.all fun p => p.closed

/-- Every handle other than pc.current is closed; the reachable-state
invariant behind the single-live-handle property. -/
def tailClosed (s : AppState) : Bool :=
  allClosed s.pcs.tail

/-- Number of live (unclosed) peer connection handles. -/
def liveCount (s : AppState) : Nat :=
  (s.pcs.filter fun p => !p.closed).length

/-- The per-handle Offering test: live with a local offer pending. -/
def isOffering (p : PCRecord) : Bool :=
  !p.closed && (match p.signalingState with
    | SignalingState.haveLocalOffer => true
    | _ => false)

/-- The machine is in Offering: pc.current is live in have-local-offer. -/
def inOffering (s : AppState) : Bool :=
  match curPC s with
  | some p => isOffering p
  | none => false

/-- `addIceCandidate` on the current handle would succeed: a live handle with
a remote description set. -/
def candidateApplicable (s : AppState) : Bool :=
  match curPC s with
  | some p => !p.closed && p.remoteDesc.isSome
  | none => false

/-- The handle is live, stable, and holds a remote description: the resting
state of the peer that answered an offer. -/
def isStableAnswerer (p : PCRecord) : Bool :=
  !p.closed && p.remoteDesc.isSome && (match p.signalingState with
    | SignalingState.stable => true
    | _ => false)

/-- No live call resources: empty room id, not in call, no streams, no live
peer connection, signaling channel absent or closed. -/
def isIdle (s : AppState) : Bool :=
  (s.roomId == "") && !s.inCall && s.localStream.isNone && s.remoteStream.isNone
    && (liveCount s == 0)
    && (match s.ws with | some w => w.closed | none => true)

/-- Every candidate ever applied to any handle of the session. -/
def allApplied (s : AppState) : List JValue :=
  s.pcs.foldr (fun p acc => p.appliedCandidates ++ acc) []

/-- The role tag of a remote description being applied. -/
inductive DescRole where
  | offer
  | answer
deriving DecidableEq

/-- `setRemoteDescription` per the WebRTC signaling-state rules: an answer is
accepted only in have-local-offer, an offer only in stable or
have-remote-offer; a closed connection rejects everything. -/
def trySetRemote (role : DescRole) (sdp : JValue) (p : PCRecord) : Option PCRecord :=
  if p.closed then none
  else
    match role, p.signalingState with
    | DescRole.offer, SignalingState.stable =>
        some { p with remoteDesc := some sdp, signalingState := SignalingState.haveRemoteOffer }
    | DescRole.offer, SignalingState.haveRemoteOffer =>
        some { p with remoteDesc := some sdp }
    | DescRole.answer, SignalingState.haveLocalOffer =>
        some { p with remoteDesc := some sdp, signalingState := SignalingState.stable }
    | _, _ => none

/-- page.tsx lines 57-62: send iff ws.current is non-null. -/
def sendMessage (s : AppState) (type : String) (payload : Payload) : AppState × List Act :=
  match s.ws with
  | some _ => (s, [Act.sendEnv { type := type, payload := payload }])
  | none => (s, [])

/-- page.tsx lines 64-86: close any existing connection, construct a fresh
one, and attach the local tracks when a local stream exists. -/
def createPeerConnection (currentRoomId : String) (s : AppState) : AppState × List Act :=
  let aClose : List Act :=
    match curPC s with
    | some _ => [Act.closePeer]
    | none => []
  let fresh : PCRecord :=
    { closed := false
      signalingState := SignalingState.stable
      remoteDesc := none
      tracksAttached := s.localStream.isSome
      appliedCandidates := [] }
  ({ s with pcs := fresh :: closeHead s.pcs }, aClose)

/-- page.tsx lines 69-73, the onicecandidate callback registered in
createPeerConnection: emit a candidate envelope iff the event carries a
non-null candidate. -/
def onIceCandidate (currentRoomId : String) (eventCandidate : Option JValue) (s : AppState) :
    AppState × List Act :=
  match eventCandidate with
  | some c =>
      sendMessage s "candidate"
        { id := some currentRoomId, sdp := none, candidate := some c, message := none }
  | none => (s, [])

/-- page.tsx lines 75-77, the ontrack callback: publish the remote stream. -/
def onTrack (streamId : Nat) (s : AppState) : AppState × List Act :=
  ({ s with remoteStream := some streamId }, [])

/-- page.tsx lines 128-139: createOffer.  Close-and-recreate the connection,
then create an offer, set it locally and send it; any rejection in the try
block is logged and leaves the freshly created handle as it stands. -/
def createOffer (currentRoomId : String) (o : Oracle) (s : AppState) : AppState × List Act :=
  let a0 : List Act := [Act.log "Creating offer..."]
  let r1 := createPeerConnection currentRoomId s
  match curPC r1.1 with
  | none => (r1.1, a0 ++ r1.2)
  | some _ =>
    match o.createOfferResult with
    | none => (r1.1, a0 ++ r1.2 ++ [Act.logError ErrK.createOffer])
    | some off =>
      if o.setLocalOfferOk then
        let s2 :=
          match curPC r1.1 with
          | some p => setCur r1.1 { p with signalingState := SignalingState.haveLocalOffer }
          | none => r1.1
        let r3 := sendMessage s2 "offer"
          { id := some currentRoomId, sdp := some off, candidate := none, message := none }
        (r3.1, a0 ++ r1.2 ++ r3.2)
      else (r1.1, a0 ++ r1.2 ++ [Act.logError ErrK.createOffer])

/-- page.tsx lines 141-153: handleOffer.  Close-and-recreate the connection,
apply the remote offer, create and set a local answer, send it; any
rejection is logged and the partial state is kept. -/
def handleOffer (sdp : JValue) (currentRoomId : String) (o : Oracle) (s : AppState) :
    AppState × List Act :=
  let a0 : List Act := [Act.log "Handling offer..."]
  let r1 := createPeerConnection currentRoomId s
  match curPC r1.1 with
  | none => (r1.1, a0 ++ r1.2)
  | some p =>
    match trySetRemote DescRole.offer sdp p with
    | none => (r1.1, a0 ++ r1.2 ++ [Act.logError ErrK.handleOffer])
    | some p1 =>
      let s2 := setCur r1.1 p1
      match o.createAnswerResult with
      | none => (s2, a0 ++ r1.2 ++ [Act.logError ErrK.handleOffer])
      | some ans =>
        if o.setLocalAnswerOk then
          let s3 := setCur s2 { p1 with signalingState := SignalingState.stable }
          let r4 := sendMessage s3 "answer"
            { id := some currentRoomId, sdp := some ans, candidate := none, message := none }
          (r4.1, a0 ++ r1.2 ++ r4.2)
        else (s2, a0 ++ r1.2 ++ [Act.logError ErrK.handleOffer])

/-- page.tsx lines 155-163: handleAnswer.  Guard on pc.current being null;
otherwise apply the remote answer, logging a rejection. -/
def handleAnswer (sdp : JValue) (s : AppState) : AppState × List Act :=
  let a0 : List Act := [Act.log "Handling answer..."]
  match curPC s with
  | none => (s, a0)
  | some p =>
    match trySetRemote DescRole.answer sdp p with
    | some p1 => (setCur s p1, a0)
    | none => (s, a0 ++ [Act.logError ErrK.handleAnswer])

/-- page.tsx lines 165-172: handleCandidate.  Guard on pc.current being null;
otherwise add the candidate, logging a rejection (which occurs exactly when
no remote description is set or the connection is closed). -/
def handleCandidate (cand : JValue) (s : AppState) : AppState × List Act :=
  match curPC s with
  | none => (s, [])
  | some p =>
    if !p.closed && p.remoteDesc.isSome then
      (setCur s { p with appliedCandidates := p.appliedCandidates ++ [cand] }, [])
    else (s, [Act.logError ErrK.addCandidate])

/-- page.tsx lines 179-187: handleHangUp, in program order: stop local
tracks, close the websocket, close the peer connection, then reset the four
state hooks, the room id last. -/
def handleHangUp (s : AppState) : AppState × List Act :=
  let a1 : List Act :=
    match s.localStream with
    | some _ => [Act.stopMediaTracks]
    | none => []
  let a2 : List Act :=
    match s.ws with
    | some _ => [Act.closeSignaling]
    | none => []
  let a3 : List Act :=
    match curPC s with
    | some _ => [Act.closePeer]
    | none => []
  let s1 : AppState :=
    { roomId := ""
      inCall := false
      localStream := none
      remoteStream := none
      ws := s.ws.map fun w => { w with closed := true }
      pcs := closeHead s.pcs }
  (s1, a1 ++ a2 ++ a3
    ++ [Act.setInCallFalse, Act.clearLocalStream,
        Act.clearRemoteStream, Act.clearRoomId])

/-- page.tsx lines 174-177: handlePeerLeft alerts then hangs up. -/
def handlePeerLeft (s : AppState) : AppState × List Act :=
  let r := handleHangUp s
  (r.1, Act.alert "The other user has left the room." :: r.2)

/-- page.tsx lines 88-124: handleJoinRoom.  Empty room id alerts and returns;
otherwise getUserMedia either rejects (logged, no state change) or yields the
stream, after which the websocket is constructed. -/
def handleJoinRoom (o : Oracle) (s : AppState) : AppState × List Act :=
  if s.roomId = "" then
    (s, [Act.alert "Please enter a Room ID."])
  else
    match o.getUserMediaResult with
    | none => (s, [Act.logError ErrK.mediaAccess])
    | some stream =>
      ({ s with localStream := some stream, inCall := true, ws := some { closed := false } }, [])

/-- page.tsx lines 100-103: the onopen callback sends the join envelope. -/
def wsOnOpen (capturedRoomId : String) (s : AppState) : AppState × List Act :=
  let r := sendMessage s "join_room"
    { id := some capturedRoomId, sdp := none, candidate := none, message := none }
  (r.1, Act.log "Connected to signaling server" :: r.2)

/-- page.tsx lines 105-120: the onmessage callback.  `none` stands for a
frame on which JSON.parse throws; the throw is uncaught (no try/catch in the
handler), as is the TypeError from reading .type off a parsed null.  A
well-formed frame is dispatched on data.type; unmatched kinds fall through
the switch. -/
def onmessage (capturedRoomId : String) (o : Oracle) (raw : Option JValue) (s : AppState) :
    Except JsError (AppState × List Act) :=
  match raw with
  | none => Except.error JsError.parseError
  | some data =>
    if isNull data then Except.error JsError.typeError
    else
      let a0 : List Act := [Act.log "Received message:"]
      match getField data "type" with
      | some (JValue.str t) =>
        if t = "peer_joined" then
          let r := createOffer capturedRoomId o s
          Except.ok (r.1, a0 ++ r.2)
        else if t = "offer" then
          if truthy (payloadField data "sdp") then
            let r := handleOffer (getDflt (payloadField data "sdp")) capturedRoomId o s
            Except.ok (r.1, a0 ++ r.2)
          else Except.ok (s, a0)
        else if t = "answer" then
          if truthy (payloadField data "sdp") then
            let r := handleAnswer (getDflt (payloadField data "sdp")) s
            Except.ok (r.1, a0 ++ r.2)
          else Except.ok (s, a0)
        else if t = "candidate" then
          if truthy (payloadField data "candidate") then
            let r := handleCandidate (getDflt (payloadField data "candidate")) s
            Except.ok (r.1, a0 ++ r.2)
          else Except.ok (s, a0)
        else if t = "peer_left" then
          let r := handlePeerLeft s
          Except.ok (r.1, a0 ++ r.2)
        else if t = "error" then
          let aAlert : List Act :=
            if truthy (payloadField data "message") then
              [Act.alertValue (getDflt (payloadField data "message"))]
            else []
          let r := handleHangUp s
          Except.ok (r.1, a0 ++ aAlert ++ r.2)
        else Except.ok (s, a0)
      | _ => Except.ok (s, a0)

/-- data.type of a well-formed frame matches one of the six switch cases. -/
def knownKind (data : JValue) : Bool :=
  match getField data "type" with
  | some (JValue.str t) =>
      t == "peer_joined" || t == "offer" || t == "answer"
        || t == "candidate" || t == "peer_left" || t == "error"
  | _ => false

/-- The actions of a dispatch result; an uncaught exception yields none. -/
def resActs (r : Except JsError (AppState × List Act)) : List Act :=
  match r with
  | Except.ok x => x.2
  | Except.error _ => []

/-- The successor state of a dispatch result, with the pre-state as the value
for the uncaught-exception case. -/
def resState (dflt : AppState) (r : Except JsError (AppState × List Act)) : AppState :=
  match r with
  | Except.ok x => x.1
  | Except.error _ => dflt

/-- The offer and peer-joined inbound events of invariant I1, with the
environment outcome each run sees. -/
inductive NegEvent where
  | peerJoined (o : Oracle)
  | offerEv (sdp : JValue) (o : Oracle)

/-- Process one I1 event (the session state component only). -/
def negStep (capturedRoomId : String) (s : AppState) (e : NegEvent) : AppState :=
  match e with
  | NegEvent.peerJoined o => (createOffer capturedRoomId o s).1
  | NegEvent.offerEv sdp o => (handleOffer sdp capturedRoomId o s).1

/-- The state component of a hang-up. -/
def hu (s : AppState) : AppState :=
  (handleHangUp s).1

/-- The initial component state: the React hooks as initialised, no refs. -/
def initState : AppState :=
  { roomId := ""
    inCall := false
    localStream := none
    remoteStream := none
    ws := none
    pcs := [] }

/-- A session that has joined room1 and holds media and an open channel, but
has not yet negotiated. -/
def joinedState : AppState :=
  { roomId := "room1"
    inCall := true
    localStream := some 0
    remoteStream := none
    ws := some { closed := false }
    pcs := [] }

/-- An environment in which every browser API call succeeds. -/
def okOracle : Oracle :=
  { createOfferResult := some (JValue.str "offer-sdp")
    setLocalOfferOk := true
    createAnswerResult := some (JValue.str "answer-sdp")
    setLocalAnswerOk := true
    getUserMediaResult := some 0 }

/-- An environment in which createOffer rejects. -/
def offerFailOracle : Oracle :=
  { okOracle with createOfferResult := none }

/-- A wire frame announcing that a peer joined. -/
def peerJoinedFrame : JValue :=
  JValue.obj [("type", JValue.str "peer_joined")]

/-- A wire frame carrying a remote offer. -/
def offerFrame (sdp : JValue) : JValue :=
  JValue.obj [("type", JValue.str "offer"), ("payload", JValue.obj [("sdp", sdp)])]

/-- A concrete remote ICE candidate value. -/
def candV : JValue :=
  JValue.str "cand1"

/-- A live stable handle holding a remote description. -/
def livePC : PCRecord :=
  { closed := false
    signalingState := SignalingState.stable
    remoteDesc := some (JValue.str "remote-offer")
    tracksAttached := true
    appliedCandidates := [] }

/-- A mid-call session: room joined, media and channel held, one live
connection. -/
def fullState : AppState :=
  { roomId := "room1"
    inCall := true
    localStream := some 0
    remoteStream := some 1
    ws := some { closed := false }
    pcs := [livePC] }

/-- Recognise the room-id reset action. -/
def isClearRoomA : Act → Bool :=
  fun a => match a with | Act.clearRoomId => true | _ => false

/-- Recognise the peer-connection close action. -/
def isClosePeerA : Act → Bool :=
  fun a => match a with | Act.closePeer => true | _ => false

theorem allClosed_filter (l : List PCRecord) (h : allClosed l = true) :
    (l.filter fun p => !p.closed) = [] := by
  induction l with
  | nil => rfl
  | cons p t ih =>
    simp only [allClosed, List.all_cons, Bool.and_eq_true] at h
    simp [List.filter_cons, h.1, ih (by simp [allClosed, h.2])]

theorem allClosed_closeHead (l : List PCRecord) (h : allClosed l.tail = true) :
    allClosed (closeHead l) = true := by
  cases l with
  | nil => rfl
  | cons p t => simp_all [closeHead, allClosed, List.all_cons]

theorem liveCount_le_one (s : AppState) (h : tailClosed s = true) :
    liveCount s ≤ 1 := by
  unfold liveCount
  unfold tailClosed at h
  cases hl : s.pcs with
  | nil => simp
  | cons p t =>
    rw [hl] at h
    simp only [List.tail_cons] at h
    rw [List.filter_cons]
    rw [allClosed_filter t h]
    cases hb : (!p.closed) <;> simp

theorem length_filter_live_cons (p : PCRecord) (l : List PCRecord)
    (hp : p.closed = false) (h : allClosed l.tail = true) :
    ((p :: closeHead l).filter fun q => !q.closed).length = 1 := by
  simp only [List.filter_cons, hp, Bool.not_false, if_true]
  rw [allClosed_filter (closeHead l) (allClosed_closeHead l h)]
  rfl

theorem tailClosed_createOffer (r : String) (o : Oracle) (s : AppState)
    (h : tailClosed s = true) :
    tailClosed (createOffer r o s).1 = true := by
  unfold tailClosed at h
  unfold createOffer createPeerConnection sendMessage
  cases hc : o.createOfferResult with
  | none =>
    simp [curPC, setCur, tailClosed, allClosed_closeHead _ h]
  | some off =>
    cases hb : o.setLocalOfferOk <;>
      cases hw : s.ws <;>
        simp [curPC, setCur, tailClosed, allClosed_closeHead _ h]

theorem tailClosed_handleOffer (sdp : JValue) (r : String) (o : Oracle) (s : AppState)
    (h : tailClosed s = true) :
    tailClosed (handleOffer sdp r o s).1 = true := by
  unfold tailClosed at h
  unfold handleOffer createPeerConnection sendMessage trySetRemote
  cases ha : o.createAnswerResult with
  | none =>
    simp [curPC, setCur, tailClosed, allClosed_closeHead _ h]
  | some ans =>
    cases hb : o.setLocalAnswerOk <;>
      cases hw : s.ws <;>
        simp [curPC, setCur, tailClosed, allClosed_closeHead _ h]

theorem tailClosed_negStep (r : String) (s : AppState) (e : NegEvent)
    (h : tailClosed s = true) :
    tailClosed (negStep r s e) = true := by
  cases e with
  | peerJoined o => exact tailClosed_createOffer r o s h
  | offerEv sdp o => exact tailClosed_handleOffer sdp r o s h

theorem tailClosed_foldl (r : String) (evs : List NegEvent) (s : AppState)
    (h : tailClosed s = true) :
    tailClosed (List.foldl (negStep r) s evs) = true := by
  induction evs generalizing s with
  | nil => exact h
  | cons e rest ih => exact ih (negStep r s e) (tailClosed_negStep r s e h)

theorem closeHead_idem (l : List PCRecord) :
    closeHead (closeHead l) = closeHead l := by
  cases l <;> rfl

theorem hu_idem (s : AppState) : hu (hu s) = hu s := by
  unfold hu handleHangUp
  cases hw : s.ws <;> simp [closeHead_idem]

theorem isIdle_hu (s : AppState) (h : tailClosed s = true) :
    isIdle (hu s) = true := by
  unfold tailClosed at h
  unfold isIdle hu handleHangUp liveCount
  rw [allClosed_filter _ (allClosed_closeHead _ h)]
  cases hw : s.ws <;> simp

/-- C1 counterexample: an offering session receives a remote candidate before
the answer arrives.  The code logs an addIceCandidate failure and drops the
candidate; after the answer sets the remote description, the set of candidates
ever applied is still empty, refuting that the candidate is buffered and
applied exactly once after the description is set. -/
theorem C1_counterexample :
    (handleCandidate candV ((createOffer "room1" okOracle joinedState).1)).2
        = [Act.logError ErrK.addCandidate] ∧
    allApplied ((handleAnswer (JValue.str "answer-sdp")
        ((handleCandidate candV ((createOffer "room1" okOracle joinedState).1)).1)).1) = [] ∧
    candidateApplicable ((handleAnswer (JValue.str "answer-sdp")
        ((handleCandidate candV ((createOffer "room1" okOracle joinedState).1)).1)).1) = true :=
  ⟨rfl, rfl, rfl⟩

/-- C1 (amended): a candidate envelope delivered before the matching remote
description is never buffered: whenever addIceCandidate would not succeed on
the current handle (no handle, closed handle, or no remote description yet),
handleCandidate leaves the session state unchanged, so the candidate is
dropped rather than queued for later application. -/
theorem C1_candidates_dropped (s : AppState) (c : JValue)
    (h : candidateApplicable s = false) :
    (handleCandidate c s).1 = s := by
  unfold candidateApplicable at h
  unfold handleCandidate
  cases hc : curPC s with
  | none => rfl
  | some p =>
    rw [hc] at h
    simp only at h
    simp [h]

/-- C1 witness: the amended theorem applied to the offering session. -/
theorem C1_candidates_dropped_witness :
    candidateApplicable ((createOffer "room1" okOracle joinedState).1) = false ∧
    (handleCandidate candV ((createOffer "room1" okOracle joinedState).1)).1
      = (createOffer "room1" okOracle joinedState).1 :=
  ⟨rfl, C1_candidates_dropped ((createOffer "room1" okOracle joinedState).1) candV rfl⟩

/-- C2 counterexample: a joined session with no peer connection (no prior
offer) receives an answer.  The call is indeed a no-op, but no diagnostic of
any kind is emitted, refuting the claim that such a call is reported as a
ProtocolViolation. -/
theorem C2_counterexample :
    inOffering joinedState = false ∧
    ((handleAnswer (JValue.str "late-answer") joinedState).2.any Act.isErrLog) = false ∧
    (handleAnswer (JValue.str "late-answer") joinedState).1 = joinedState :=
  ⟨rfl, rfl, rfl⟩

/-- C2 (amended): handleAnswer sets the remote description only when the
machine is Offering (a live handle in have-local-offer); outside Offering the
session state is left unchanged, and the failure is logged precisely when a
handle exists — with a null handle the call returns silently, reporting
nothing. -/
theorem C2_answer_guard (s : AppState) (sdp : JValue) (h : inOffering s = false) :
    (handleAnswer sdp s).1 = s ∧
    ((handleAnswer sdp s).2.any Act.isErrLog) = (curPC s).isSome := by
  unfold inOffering at h
  unfold handleAnswer
  cases hc : curPC s with
  | none => simp [Act.isErrLog]
  | some p =>
    rw [hc] at h
    simp only at h
    have hnone : trySetRemote DescRole.answer sdp p = none := by
      unfold isOffering at h
      unfold trySetRemote
      cases hcl : p.closed with
      | true => simp
      | false =>
        rw [hcl] at h
        simp only [Bool.not_false, Bool.true_and] at h
        cases hs : p.signalingState <;> rw [hs] at h <;> simp_all
    simp [hnone, Act.isErrLog]

/-- C2 witness: the amended theorem applied to a stable answerer session that
receives a late answer. -/
theorem C2_answer_guard_witness :
    inOffering ((handleOffer (JValue.str "remote-offer") "room1" okOracle joinedState).1) = false ∧
    ((handleAnswer (JValue.str "late-answer")
        ((handleOffer (JValue.str "remote-offer") "room1" okOracle joinedState).1)).1
      = (handleOffer (JValue.str "remote-offer") "room1" okOracle joinedState).1 ∧
    (((handleAnswer (JValue.str "late-answer")
        ((handleOffer (JValue.str "remote-offer") "room1" okOracle joinedState).1)).2.any Act.isErrLog)
      = (curPC ((handleOffer (JValue.str "remote-offer") "room1" okOracle joinedState).1)).isSome)) :=
  ⟨rfl, C2_answer_guard ((handleOffer (JValue.str "remote-offer") "room1" okOracle joinedState).1)
    (JValue.str "late-answer") rfl⟩

/-- C3 counterexample: a joined session runs the offer-creation path and the
createOffer API rejects.  The error is merely logged, and the freshly created
peer connection handle stays live — it is not released and the session is not
back to an idle pre-negotiation state, refuting the claim. -/
theorem C3_counterexample :
    liveCount ((createOffer "room1" offerFailOracle joinedState).1) = 1 ∧
    ((createOffer "room1" offerFailOracle joinedState).2.any Act.isErrLog) = true ∧
    isIdle ((createOffer "room1" offerFailOracle joinedState).1) = false :=
  ⟨rfl, rfl, rfl⟩

/-- C3 (amended): when media-description creation or local application fails
during the offer path, the failure is logged and no offer envelope is sent,
but the freshly created PeerConnectionHandle remains live (exactly one live
handle results); it is released only by a later connection replacement or
hang-up, and the state does not return to Idle. -/
theorem C3_offer_failure (s : AppState) (r : String) (o : Oracle)
    (hfail : o.createOfferResult = none ∨ o.setLocalOfferOk = false)
    (hinv : tailClosed s = true) :
    ((createOffer r o s).2.any Act.isErrLog) = true ∧
    ((createOffer r o s).2.any (isSendType "offer")) = false ∧
    liveCount (createOffer r o s).1 = 1 := by
  unfold tailClosed at hinv
  unfold createOffer createPeerConnection
  cases hc : o.createOfferResult with
  | none =>
    refine ⟨?_, ?_, ?_⟩
    · cases hcp : curPC s <;> simp [hcp, curPC, Act.isErrLog]
    · cases hcp : curPC s <;> simp [hcp, curPC, isSendType]
    · unfold liveCount
      cases hcp : curPC s <;>
        · simp only [hcp, curPC, List.head?_cons]
          exact length_filter_live_cons _ s.pcs rfl hinv
  | some off =>
    cases hb : o.setLocalOfferOk with
    | true =>
      rcases hfail with hf | hf
      · rw [hc] at hf; cases hf
      · rw [hb] at hf; cases hf
    | false =>
      refine ⟨?_, ?_, ?_⟩
      · cases hcp : curPC s <;> simp [hcp, curPC, Act.isErrLog]
      · cases hcp : curPC s <;> simp [hcp, curPC, isSendType]
      · unfold liveCount
        cases hcp : curPC s <;>
          · simp only [hcp, curPC, List.head?_cons]
            exact length_filter_live_cons _ s.pcs rfl hinv

/-- C3 witness: the amended theorem applied to a joined session whose
createOffer call rejects. -/
theorem C3_offer_failure_witness :
    (offerFailOracle.createOfferResult = none ∨ offerFailOracle.setLocalOfferOk = false) ∧
    tailClosed joinedState = true ∧
    (((createOffer "room1" offerFailOracle joinedState).2.any Act.isErrLog) = true ∧
     ((createOffer "room1" offerFailOracle joinedState).2.any (isSendType "offer")) = false ∧
     liveCount (createOffer "room1" offerFailOracle joinedState).1 = 1) :=
  ⟨Or.inl rfl, rfl,
    C3_offer_failure joinedState "room1" offerFailOracle (Or.inl rfl) rfl⟩

/-- C4: for any sequence of offer/peer-joined events, starting from any state
in which every non-current handle is already closed (true of all reachable
states, including the initial one with no handles), the same holds after
processing, and at most one PeerConnectionHandle is live at every point;
each connection replacement closes the old handle before constructing the
new one. -/
theorem C4_single_live_handle (r : String) (s : AppState) (evs : List NegEvent)
    (h : tailClosed s = true) :
    tailClosed (List.foldl (negStep r) s evs) = true ∧
    liveCount (List.foldl (negStep r) s evs) ≤ 1 := by
  have hf := tailClosed_foldl r evs s h
  exact ⟨hf, liveCount_le_one _ hf⟩

/-- C4 witness: a joined session processes a peer-joined event and then a
remote offer; at most one handle is live afterwards. -/
theorem C4_single_live_handle_witness :
    tailClosed joinedState = true ∧
    (tailClosed (List.foldl (negStep "room1") joinedState
        [NegEvent.peerJoined okOracle,
         NegEvent.offerEv (JValue.str "remote-offer") okOracle]) = true ∧
     liveCount (List.foldl (negStep "room1") joinedState
        [NegEvent.peerJoined okOracle,
         NegEvent.offerEv (JValue.str "remote-offer") okOracle]) ≤ 1) :=
  ⟨rfl, C4_single_live_handle "room1" joinedState
    [NegEvent.peerJoined okOracle,
     NegEvent.offerEv (JValue.str "remote-offer") okOracle] rfl⟩

/-- C5: hang-up is idempotent.  From any state whose non-current handles are
closed (every reachable state), hanging up twice yields exactly the state of
hanging up once, the resulting state is Idle (no live peer connection, no
local media, empty room id), the hang-up raises no error diagnostic, and a
session that never joined also ends Idle. -/
theorem C5_hangup_idempotent (s : AppState) (h : tailClosed s = true) :
    hu (hu s) = hu s ∧
    isIdle (hu s) = true ∧
    ((handleHangUp s).2.any Act.isErrLog) = false ∧
    isIdle (hu initState) = true := by
  refine ⟨hu_idem s, isIdle_hu s h, ?_, rfl⟩
  unfold handleHangUp
  cases s.localStream <;> cases s.ws <;> cases hcp : curPC s <;>
    simp [Act.isErrLog]

/-- C5 witness: the theorem applied to a mid-call session. -/
theorem C5_hangup_idempotent_witness :
    tailClosed fullState = true ∧
    (hu (hu fullState) = hu fullState ∧
     isIdle (hu fullState) = true ∧
     ((handleHangUp fullState).2.any Act.isErrLog) = false ∧
     isIdle (hu initState) = true) :=
  ⟨rfl, C5_hangup_idempotent fullState rfl⟩

/-- C6 counterexample: a frame on which JSON.parse throws.  The onmessage
handler has no try/catch, so the exception escapes the handler uncaught
rather than the frame being dropped with a diagnostic, refuting the claim. -/
theorem C6_counterexample :
    onmessage "room1" okOracle none joinedState = Except.error JsError.parseError :=
  rfl

/-- C6 (amended): a frame that cannot be parsed makes the onmessage handler
throw an uncaught parse error (no diagnostic is emitted and no state change
survives); a well-formed non-null frame whose kind matches none of the switch
cases is ignored: the state is unchanged and the only output is the
console.log of the received type. -/
theorem C6_frame_handling (r : String) (o : Oracle) (s : AppState) (j : JValue)
    (h1 : isNull j = false) (h2 : knownKind j = false) :
    onmessage r o none s = Except.error JsError.parseError ∧
    onmessage r o (some j) s = Except.ok (s, [Act.log "Received message:"]) := by
  refine ⟨rfl, ?_⟩
  unfold onmessage
  simp only [h1, Bool.false_eq_true, if_false]
  unfold knownKind at h2
  cases hg : getField j "type" with
  | none => simp [hg]
  | some v =>
    cases v with
    | str t =>
      rw [hg] at h2
      simp only [Bool.or_eq_false_iff, beq_eq_false_iff_ne, ne_eq] at h2
      simp [hg, h2.1.1.1.1.1, h2.1.1.1.1.2, h2.1.1.1.2, h2.1.1.2, h2.1.2, h2.2]
    | null => simp [hg]
    | bool b => simp [hg]
    | num n => simp [hg]
    | obj f => simp [hg]

/-- C6 witness: a parse failure and a well-formed frame of unknown kind. -/
theorem C6_frame_handling_witness :
    isNull (JValue.obj [("type", JValue.str "bogus")]) = false ∧
    knownKind (JValue.obj [("type", JValue.str "bogus")]) = false ∧
    (onmessage "room1" okOracle none joinedState = Except.error JsError.parseError ∧
     onmessage "room1" okOracle (some (JValue.obj [("type", JValue.str "bogus")])) joinedState
       = Except.ok (joinedState, [Act.log "Received message:"])) :=
  ⟨rfl, rfl,
    C6_frame_handling "room1" okOracle joinedState (JValue.obj [("type", JValue.str "bogus")])
      rfl rfl⟩

/-- C8: join with an empty room id alerts the caller and returns with the
state exactly unchanged: no media is acquired, no channel is opened, no
envelope is sent, the session stays as it was. -/
theorem C8_empty_room_rejected (s : AppState) (o : Oracle) (h : s.roomId = "") :
    handleJoinRoom o s = (s, [Act.alert "Please enter a Room ID."]) := by
  unfold handleJoinRoom
  simp [h]

/-- C8 witness: the theorem applied to the initial (Idle) session. -/
theorem C8_empty_room_rejected_witness :
    initState.roomId = "" ∧
    handleJoinRoom okOracle initState = (initState, [Act.alert "Please enter a Room ID."]) :=
  ⟨rfl, C8_empty_room_rejected initState okOracle rfl⟩

theorem onmessage_peer_joined (r : String) (o : Oracle) (s : AppState) :
    onmessage r o (some peerJoinedFrame) s =
      Except.ok ((createOffer r o s).1,
        Act.log "Received message:" :: (createOffer r o s).2) := rfl

theorem onmessage_offer (r : String) (o : Oracle) (t : AppState) (sdp : JValue)
    (h5 : truthy (some sdp) = true) :
    onmessage r o (some (offerFrame sdp)) t =
      Except.ok ((handleOffer sdp r o t).1,
        Act.log "Received message:" :: (handleOffer sdp r o t).2) := by
  have hp : payloadField (offerFrame sdp) "sdp" = some sdp := rfl
  unfold onmessage
  simp only [hp, h5]
  rfl

theorem createOffer_success (r : String) (o : Oracle) (s : AppState) (off : JValue)
    (hw : s.ws.isSome = true) (hoff : o.createOfferResult = some off)
    (h2 : o.setLocalOfferOk = true) :
    (createOffer r o s).2.countP (isSendType "offer") = 1 ∧
    inOffering (createOffer r o s).1 = true := by
  obtain ⟨w, hww⟩ := Option.isSome_iff_exists.mp hw
  unfold createOffer createPeerConnection sendMessage
  rw [hoff, h2]
  cases hcp : curPC s <;>
    simp [hcp, curPC, setCur, hww, inOffering, isOffering, isSendType,
          List.countP_cons, List.countP_append]

theorem handleOffer_success (sdp : JValue) (r : String) (o : Oracle) (t : AppState) (ans : JValue)
    (hw : t.ws.isSome = true) (hans : o.createAnswerResult = some ans)
    (h4 : o.setLocalAnswerOk = true) :
    (handleOffer sdp r o t).2.countP (isSendType "answer") = 1 ∧
    (handleOffer sdp r o t).2.countP (isSendType "offer") = 0 ∧
    (match curPC (handleOffer sdp r o t).1 with
      | some p => isStableAnswerer p
      | none => false) = true := by
  obtain ⟨w, hww⟩ := Option.isSome_iff_exists.mp hw
  unfold handleOffer createPeerConnection sendMessage trySetRemote
  rw [hans, h4]
  cases hcp : curPC t <;>
    simp [hcp, curPC, setCur, hww, isStableAnswerer, isSendType,
          List.countP_cons, List.countP_append]

/-- C7: role assignment is deterministic by message causality.  A session that
receives a peer-joined frame emits exactly one offer envelope and ends up
Offering; a session that receives an offer frame emits exactly one answer
envelope, emits no offer envelope, and ends up a stable answerer — so two
sessions fed the complementary events never both initiate.  Hypotheses: both
sessions hold a signaling channel and the description APIs succeed. -/
theorem C7_role_determinism (s t : AppState) (o : Oracle) (r : String) (sdp : JValue)
    (hsw : s.ws.isSome = true) (htw : t.ws.isSome = true)
    (h1 : o.createOfferResult.isSome = true) (h2 : o.setLocalOfferOk = true)
    (h3 : o.createAnswerResult.isSome = true) (h4 : o.setLocalAnswerOk = true)
    (h5 : truthy (some sdp) = true) :
    (resActs (onmessage r o (some peerJoinedFrame) s)).countP (isSendType "offer") = 1 ∧
    inOffering (resState s (onmessage r o (some peerJoinedFrame) s)) = true ∧
    (resActs (onmessage r o (some (offerFrame sdp)) t)).countP (isSendType "answer") = 1 ∧
    (resActs (onmessage r o (some (offerFrame sdp)) t)).countP (isSendType "offer") = 0 ∧
    (match curPC (resState t (onmessage r o (some (offerFrame sdp)) t)) with
      | some p => isStableAnswerer p
      | none => false) = true := by
  obtain ⟨off, hoff⟩ := Option.isSome_iff_exists.mp h1
  obtain ⟨ans, hans⟩ := Option.isSome_iff_exists.mp h3
  have hA := createOffer_success r o s off hsw hoff h2
  have hB := handleOffer_success sdp r o t ans htw hans h4
  rw [onmessage_peer_joined, onmessage_offer r o t sdp h5]
  simp only [resActs, resState, List.countP_cons, isSendType]
  simp [hA.1, hA.2, hB.1, hB.2.1, hB.2.2]

/-- C7 witness: two joined sessions, one fed peer-joined and one fed an
offer, in an environment where the description APIs succeed. -/
theorem C7_role_determinism_witness :
    joinedState.ws.isSome = true ∧
    okOracle.createOfferResult.isSome = true ∧
    okOracle.setLocalOfferOk = true ∧
    okOracle.createAnswerResult.isSome = true ∧
    okOracle.setLocalAnswerOk = true ∧
    truthy (some (JValue.str "remote-offer")) = true ∧
    ((resActs (onmessage "room1" okOracle (some peerJoinedFrame) joinedState)).countP
        (isSendType "offer") = 1 ∧
     inOffering (resState joinedState
        (onmessage "room1" okOracle (some peerJoinedFrame) joinedState)) = true ∧
     (resActs (onmessage "room1" okOracle (some (offerFrame (JValue.str "remote-offer")))
        joinedState)).countP (isSendType "answer") = 1 ∧
     (resActs (onmessage "room1" okOracle (some (offerFrame (JValue.str "remote-offer")))
        joinedState)).countP (isSendType "offer") = 0 ∧
     (match curPC (resState joinedState
        (onmessage "room1" okOracle (some (offerFrame (JValue.str "remote-offer")))
          joinedState)) with
       | some p => isStableAnswerer p
       | none => false) = true) :=
  ⟨rfl, rfl, rfl, rfl, rfl, rfl,
    C7_role_determinism joinedState joinedState okOracle "room1" (JValue.str "remote-offer")
      rfl rfl rfl rfl rfl rfl rfl⟩

/-- C9 counterexample: on a mid-call session holding every resource, the
hang-up trace clears the RoomId last (index 6), after closing the peer
connection (index 2), so the release order of I4 — RoomId first, then
PeerConnectionHandle, then LocalMediaHandle, then SignalingChannel — does not
hold (nor does the §4.4 order, which closes the negotiation machine before
the signaling channel). -/
theorem C9_counterexample :
    ¬ (((handleHangUp fullState).2.findIdx isClearRoomA) <
        ((handleHangUp fullState).2.findIdx isClosePeerA)) := by
  decide

/-- C9 (amended): on any session holding local media, a signaling channel and
a peer connection, hang-up releases in the program order: stop local media
tracks, close the signaling channel, close the peer connection, then reset
the inCall flag and the stream references and clear the RoomId last; the
resulting state is Idle. -/
theorem C9_hangup_order (s : AppState)
    (h1 : s.localStream.isSome = true) (h2 : s.ws.isSome = true)
    (h3 : (curPC s).isSome = true) (h4 : tailClosed s = true) :
    (handleHangUp s).2 =
      [Act.stopMediaTracks, Act.closeSignaling, Act.closePeer, Act.setInCallFalse,
       Act.clearLocalStream, Act.clearRemoteStream, Act.clearRoomId] ∧
    isIdle (hu s) = true := by
  obtain ⟨m, hm⟩ := Option.isSome_iff_exists.mp h1
  obtain ⟨w, hw⟩ := Option.isSome_iff_exists.mp h2
  obtain ⟨p, hp⟩ := Option.isSome_iff_exists.mp h3
  refine ⟨?_, isIdle_hu s h4⟩
  unfold handleHangUp
  rw [hm, hw, hp]
  rfl

/-- C9 witness: the amended theorem applied to the mid-call session. -/
theorem C9_hangup_order_witness :
    fullState.localStream.isSome = true ∧
    fullState.ws.isSome = true ∧
    (curPC fullState).isSome = true ∧
    tailClosed fullState = true ∧
    ((handleHangUp fullState).2 =
      [Act.stopMediaTracks, Act.closeSignaling, Act.closePeer, Act.setInCallFalse,
       Act.clearLocalStream, Act.clearRemoteStream, Act.clearRoomId] ∧
     isIdle (hu fullState) = true) :=
  ⟨rfl, rfl, rfl, rfl, C9_hangup_order fullState rfl rfl rfl rfl⟩

/-- C10: the onicecandidate callback emits nothing for the null end-of-
gathering event, and for a discovered (non-null) candidate it emits exactly
the candidate envelope carrying the room id and the candidate, leaving the
state unchanged; the session holds a signaling channel. -/
theorem C10_candidate_emission (s : AppState) (r : String) (c : JValue)
    (h : s.ws.isSome = true) :
    onIceCandidate r none s = (s, []) ∧
    (onIceCandidate r (some c) s).2 =
      [Act.sendEnv
        { type := "candidate",
          payload := { id := some r, sdp := none, candidate := some c, message := none } }] ∧
    (onIceCandidate r (some c) s).1 = s := by
  obtain ⟨w, hw⟩ := Option.isSome_iff_exists.mp h
  unfold onIceCandidate sendMessage
  rw [hw]
  exact ⟨rfl, rfl, rfl⟩

/-- C10 witness: the theorem applied to the joined session and a concrete
candidate. -/
theorem C10_candidate_emission_witness :
    joinedState.ws.isSome = true ∧
    (onIceCandidate "room1" none joinedState = (joinedState, []) ∧
     (onIceCandidate "room1" (some candV) joinedState).2 =
       [Act.sendEnv
         { type := "candidate",
           payload := { id := some "room1", sdp := none, candidate := some candV,
                        message := none } }] ∧
     (onIceCandidate "room1" (some candV) joinedState).1 = joinedState) :=
  ⟨rfl, C10_candidate_emission joinedState "room1" candV rfl⟩
